import Mathlib

/-
Verification of the kiln firing controller core (PotteryOven).

The definitions below are a shallow embedding of the C sources:
  - Core/Inc/pid.h        : Q16.16 fixed-point kernel (macros Q16_MUL, Q16_DIV)
  - Core/Src/pid.c        : gradient PI controller with anti-windup
  - Core/Src/heater.c     : heater levels, coil states, program sequencing
  - Core/Src/MAX31855.c   : thermocouple frame decoding
  - Core/Src/settings.c   : settings persistence and validation
  - Core/Src/programs.c   : firing program persistence

Machine integers are modeled as Lean Int with explicit two-complement
normalization where the C code casts or can overflow.  C integer division
truncates toward zero and is modeled with Int.tdiv; an arithmetic right
shift rounds toward minus infinity and is modeled with Int.fdiv.
-/

/-- Two-complement normalization to a signed 32-bit value, the effect of a
cast to int32_t in the C sources. -/
def toI32 (x : Int) : Int := (x + 2 ^ 31) % 2 ^ 32 - 2 ^ 31

/-- Two-complement normalization to a signed 16-bit value, the effect of a
cast to int16_t in the C sources. -/
def toI16 (x : Int) : Int := (x + 2 ^ 15) % 2 ^ 16 - 2 ^ 15

/-- Truncation to an unsigned 16-bit value, the effect of a cast to
uint16_t in the C sources. -/
def toU16 (x : Int) : Int := x % 2 ^ 16

/-- Q16.16 constant for 1.0 (pid.h, Q16_ONE). -/
def Q16_ONE : Int := 65536

/-- Largest int32_t value. -/
def I32_MAX : Int := 2147483647

/-- Smallest int32_t value. -/
def I32_MIN : Int := -2147483648

/-- Q16.16 multiplication from pid.h:
Q16_MUL(a, b) = (q16_t)(((int64_t)(a) * (int64_t)(b)) >> 16).
The 64-bit product of two int32 values never overflows int64, the
arithmetic shift right by 16 is a floor division, and the final cast to
q16_t (int32_t) truncates to 32 bits. -/
def Q16_MUL (a b : Int) : Int := toI32 ((a * b).fdiv 65536)

/-- Q16.16 division from pid.h:
Q16_DIV(a, b) = (q16_t)(((int64_t)(a) << 16) / (b)).
The shifted numerator fits in int64, C division truncates toward zero,
and the final cast to q16_t truncates to 32 bits. -/
def Q16_DIV (a b : Int) : Int := toI32 ((a * 65536).tdiv b)

/-- Values in the signed 32-bit range are fixed by the int32 cast. -/
theorem toI32_eq_self {x : Int} (h1 : -(2 ^ 31) ≤ x) (h2 : x < 2 ^ 31) :
    toI32 x = x := by
  unfold toI32
  have hlt : x + 2 ^ 31 < 2 ^ 32 := by omega
  have hge : (0 : Int) ≤ x + 2 ^ 31 := by omega
  rw [Int.emod_eq_of_lt hge hlt]
  omega

theorem q16_mul_one_eq_self {a : Int} (h1 : -(2 ^ 31) ≤ a) (h2 : a < 2 ^ 31) :
    Q16_MUL a Q16_ONE = a := by
  unfold Q16_MUL Q16_ONE
  rw [Int.mul_fdiv_cancel a (by norm_num)]
  exact toI32_eq_self h1 h2

theorem q16_div_one_eq_self {a : Int} (h1 : -(2 ^ 31) ≤ a) (h2 : a < 2 ^ 31) :
    Q16_DIV a Q16_ONE = a := by
  unfold Q16_DIV Q16_ONE
  rw [Int.mul_tdiv_cancel a (by norm_num)]
  exact toI32_eq_self h1 h2

theorem q16_mul_comm (a b : Int) : Q16_MUL a b = Q16_MUL b a := by
  unfold Q16_MUL
  rw [Int.mul_comm]

/-- C2 counterexample: the claim says Q16 multiplication saturates, so that
Q16_MUL(I32_MAX, 2 * Q16_ONE) = I32_MAX; on the source macro the int32 cast
wraps and the product of the two concrete extreme inputs is -2, not I32_MAX. -/
theorem q16_mul_max_wraps_counterexample :
    Q16_MUL I32_MAX (2 * Q16_ONE) = -2 ∧ (-2 : Int) ≠ I32_MAX := by
  constructor
  · decide
  · decide

/-- C2 amended: Q16_MUL wraps modulo 2^32 on overflow instead of saturating:
at the extreme values, Q16_MUL(I32_MAX, 2 * Q16_ONE) = -2 and
Q16_MUL(I32_MIN, 2 * Q16_ONE) = 0. -/
theorem q16_mul_overflow_wraps :
    Q16_MUL I32_MAX (2 * Q16_ONE) = -2 ∧ Q16_MUL I32_MIN (2 * Q16_ONE) = 0 := by
  constructor
  · decide
  · decide

/-- C9: for all q16 values a and b of magnitude below 2^31, multiplication
by Q16_ONE and division by Q16_ONE are the identity, and Q16_MUL commutes. -/
theorem q16_algebra_small_values (a b : Int)
    (ha : |a| < 2 ^ 15 * 65536) (hb : |b| < 2 ^ 15 * 65536) :
    Q16_MUL a Q16_ONE = a ∧ Q16_DIV a Q16_ONE = a ∧ Q16_MUL a b = Q16_MUL b a := by
  have ha2 := abs_lt.mp ha
  have ha1 : -(2 ^ 31) ≤ a := by omega
  have ha3 : a < 2 ^ 31 := by omega
  exact ⟨q16_mul_one_eq_self ha1 ha3, q16_div_one_eq_self ha1 ha3, q16_mul_comm a b⟩

/-- C9 witness: the algebra theorem instantiated at a = 196608 (3.0 in q16)
and b = 32768 (0.5 in q16). -/
theorem q16_algebra_small_values_witness :
    Q16_MUL 196608 Q16_ONE = 196608 ∧ Q16_DIV 196608 Q16_ONE = 196608 ∧
      Q16_MUL 196608 32768 = Q16_MUL 32768 196608 :=
  q16_algebra_small_values 196608 32768 (by decide) (by decide)

/-
Gradient PI controller (pid.c / pid.h).  The handle struct
GradientController_HandleTypeDef_t is embedded as a Lean structure; the
int16_t field T_prev_mdeg and the uint16_t field Ts_ms are carried as Int,
the uint8_t flag initialized as Bool.
-/

/-- State of the gradient PI controller, from
GradientController_HandleTypeDef_t in pid.h. -/
structure GradientController where
  Kc : Int
  Ti_inv_Ts : Int
  Taw_inv_Ts : Int
  alpha : Int
  one_minus_alpha : Int
  Ts_ms : Int
  u_min : Int
  u_max : Int
  T_prev_mdeg : Int
  g_f_prev : Int
  I : Int
  g_sp : Int
  initialized : Bool
  deriving Repr, DecidableEq

/-- GradientController_Reset from pid.c: clears previous temperature,
filtered gradient, integrator, setpoint and the initialized flag. -/
def GradientController_Reset (s : GradientController) : GradientController :=
  { s with T_prev_mdeg := 0, g_f_prev := 0, I := 0, g_sp := 0, initialized := false }

/-- GradientController_SetSetpoint from pid.c. -/
def GradientController_SetSetpoint (s : GradientController) (g_sp : Int) :
    GradientController :=
  { s with g_sp := g_sp }

/-- GradientController_Init from pid.c: loads the GC_DEFAULT_* constants of
pid.h (Kc = Q16_FROM_INT(100), Ts/Ti = Ts/Taw = 1092, alpha = 52429,
1 - alpha = 13107, Ts = 1000 ms, u in [0, Q16_ONE]) and then resets the
internal state. -/
def GradientController_Init : GradientController :=
  GradientController_Reset
    { Kc := 100 * 65536
      Ti_inv_Ts := 1092
      Taw_inv_Ts := 1092
      alpha := 52429
      one_minus_alpha := 13107
      Ts_ms := 1000
      u_min := 0
      u_max := 65536
      T_prev_mdeg := 0
      g_f_prev := 0
      I := 0
      g_sp := 0
      initialized := false }

/-- GradientController_Update from pid.c.  Returns the controller output u
together with the updated state.  On the first call after init or reset it
stores the temperature and returns zero.  Otherwise it estimates the
gradient, filters it, computes the PI output, clamps it to
[u_min, u_max] with two sequential comparisons as in the source, and
applies the back-calculation anti-windup integrator update.  All int32
additions are normalized with toI32 where the C code can wrap. -/
def GradientController_Update (s : GradientController) (T_current_mdeg : Int) :
    Int × GradientController :=
  if s.initialized = false then
    (0, { s with T_prev_mdeg := T_current_mdeg, initialized := true })
  else
    let dT_mdeg := T_current_mdeg - s.T_prev_mdeg
    let g_hat := toI32 ((dT_mdeg * 65536).tdiv s.Ts_ms)
    let g_f := toI32 (Q16_MUL s.alpha s.g_f_prev + Q16_MUL s.one_minus_alpha g_hat)
    let e := toI32 (s.g_sp - g_f)
    let u_star := Q16_MUL s.Kc (toI32 (e + s.I))
    let u1 := if u_star < s.u_min then s.u_min else u_star
    let u := if u1 > s.u_max then s.u_max else u1
    let Inew := toI32 (s.I + toI32 (Q16_MUL s.Ti_inv_Ts e + Q16_MUL s.Taw_inv_Ts (toI32 (u - u_star))))
    (u, { s with I := Inew, T_prev_mdeg := T_current_mdeg, g_f_prev := g_f })

/-- GradientController_GetHeaterLevel from pid.c: clamps the duty to
[0, Q16_ONE], maps it to 0..6 with rounding, and clamps the result. -/
def GradientController_GetHeaterLevel (u : Int) : Int :=
  let u1 := if u < 0 then 0 else u
  let u2 := if u1 > Q16_ONE then Q16_ONE else u1
  let level := (u2 * 6 + 32768).fdiv 65536
  let l1 := if level < 0 then 0 else level
  if l1 > 6 then 6 else l1

/-- Outputs of a sequence of GradientController_Update calls, one per
temperature sample, threading the controller state. -/
def GradientController_RunOutputs (s : GradientController) :
    List Int → List Int
  | [] => []
  | T :: Ts =>
      let r := GradientController_Update s T
      r.1 :: GradientController_RunOutputs r.2 Ts

theorem gradientController_Update_preserves_limits
    (s : GradientController) (T : Int) :
    (GradientController_Update s T).2.u_min = s.u_min ∧
      (GradientController_Update s T).2.u_max = s.u_max := by
  unfold GradientController_Update
  split
  · exact ⟨rfl, rfl⟩
  · exact ⟨rfl, rfl⟩

theorem gradientController_Update_output_in_range
    (s : GradientController) (T : Int)
    (hmin : s.u_min ≤ 0) (hmax : 0 ≤ s.u_max) :
    s.u_min ≤ (GradientController_Update s T).1 ∧
      (GradientController_Update s T).1 ≤ s.u_max := by
  unfold GradientController_Update
  split
  · exact ⟨hmin, hmax⟩
  · simp only []
    split
    · split
      · omega
      · omega
    · split
      · omega
      · omega

/-- C8 counterexample: the claim quantifies over any controller state with
u_min ≤ u_max, including the first call after a reset; on a state with
u_min = 1, u_max = 2 and the initialized flag cleared, the update returns
0, which is outside [u_min, u_max]. -/
theorem gradientController_first_call_out_of_range_counterexample :
    (GradientController_Update
      { Kc := 100 * 65536, Ti_inv_Ts := 1092, Taw_inv_Ts := 1092,
        alpha := 52429, one_minus_alpha := 13107, Ts_ms := 1000,
        u_min := 1, u_max := 2, T_prev_mdeg := 0, g_f_prev := 0,
        I := 0, g_sp := 0, initialized := false } 0).1 = 0 ∧
      ¬ ((1 : Int) ≤ 0) := by
  constructor
  · rfl
  · decide

/-- C8 amended: for every starting controller state whose output limits
satisfy u_min ≤ 0 ≤ u_max (as established by GradientController_Init, which
sets u_min = 0 and u_max = Q16_ONE, and preserved by every update), every
value returned over any sequence of update calls, including the first call
after init or reset, lies in [u_min, u_max]. -/
theorem gradientController_outputs_in_range
    (s : GradientController) (Ts : List Int)
    (hmin : s.u_min ≤ 0) (hmax : 0 ≤ s.u_max) :
    ∀ u ∈ GradientController_RunOutputs s Ts, s.u_min ≤ u ∧ u ≤ s.u_max := by
  induction Ts generalizing s with
  | nil => intro u hu; simp [GradientController_RunOutputs] at hu
  | cons T rest ih =>
      intro u hu
      simp only [GradientController_RunOutputs, List.mem_cons] at hu
      rcases hu with h | h
      · subst h
        exact gradientController_Update_output_in_range s T hmin hmax
      · have hpres := gradientController_Update_preserves_limits s T
        have := ih (GradientController_Update s T).2
          (by rw [hpres.1]; exact hmin) (by rw [hpres.2]; exact hmax) u h
        rw [hpres.1, hpres.2] at this
        exact this

/-- C8 amended witness: starting from the default-initialized controller
(u_min = 0, u_max = Q16_ONE), the duty returned for the first sample 20000
lies in [0, Q16_ONE]. -/
theorem gradientController_outputs_in_range_witness :
    GradientController_Init.u_min ≤
        (GradientController_Update GradientController_Init 20000).1 ∧
      (GradientController_Update GradientController_Init 20000).1 ≤
        GradientController_Init.u_max :=
  gradientController_outputs_in_range GradientController_Init [20000]
    (by decide) (by decide)
    (GradientController_Update GradientController_Init 20000).1
    (List.mem_cons_self _ _)

/-
Heater module (heater.c).  The handle struct of the revision present in
heater.c carries the level-based coil scheme: a heater level 0..6, the
previous level used by the door logic, three commanded coil states, the
gradient-control flag and the program execution state.  GPIO ports, the
temperature sample buffer and tick counters are peripheral state that the
claims do not touch.  The hgc pointer is modeled as the controller state
itself together with a nullness flag.
-/

/-- Commanded state of one heating coil (heater.h, coil state values
COIL_OFF, COIL_ON, COIL_PWM). -/
inductive CoilState where
  | COIL_OFF
  | COIL_ON
  | COIL_PWM
  deriving Repr, DecidableEq

/-- HAL status result of the heater entry points. -/
inductive HALStatus where
  | HAL_OK
  | HAL_ERROR
  deriving Repr, DecidableEq

/-- Firing program as stored by the UI (ui_program_t in ui.h): step count
plus per-step gradient magnitude in degrees C per hour, cooling flag and
target temperature in degrees C. -/
structure UiProgram where
  length : Nat
  gradient : List Nat
  gradient_negative : List Bool
  temperature : List Nat
  deriving Repr, DecidableEq

/-- Heater handle state, from the fields of Heater_HandleTypeDef_t that
heater.c reads and writes. -/
structure HeaterState where
  heater_level : Nat
  heater_level_prev : Nat
  flag_door_open : Bool
  coil1 : CoilState
  coil2 : CoilState
  coil3 : CoilState
  gradient_control_enabled : Bool
  active_program : Option UiProgram
  current_step : Nat
  target_temperature : Nat
  hgc_null : Bool
  hgc : GradientController
  deriving Repr, DecidableEq

/-- heater_set_level from heater.c: stores the requested level
unconditionally, then maps levels 0..6 to the three commanded coil states
per the level table; any other level returns HAL_ERROR and leaves the coil
states untouched. -/
def heater_set_level (s : HeaterState) (level : Nat) : HALStatus × HeaterState :=
  let s0 := { s with heater_level := level }
  match level with
  | 0 => (HALStatus.HAL_OK, { s0 with coil1 := CoilState.COIL_OFF, coil2 := CoilState.COIL_OFF, coil3 := CoilState.COIL_OFF })
  | 1 => (HALStatus.HAL_OK, { s0 with coil1 := CoilState.COIL_PWM, coil2 := CoilState.COIL_OFF, coil3 := CoilState.COIL_OFF })
  | 2 => (HALStatus.HAL_OK, { s0 with coil1 := CoilState.COIL_ON, coil2 := CoilState.COIL_OFF, coil3 := CoilState.COIL_OFF })
  | 3 => (HALStatus.HAL_OK, { s0 with coil1 := CoilState.COIL_ON, coil2 := CoilState.COIL_PWM, coil3 := CoilState.COIL_OFF })
  | 4 => (HALStatus.HAL_OK, { s0 with coil1 := CoilState.COIL_ON, coil2 := CoilState.COIL_ON, coil3 := CoilState.COIL_OFF })
  | 5 => (HALStatus.HAL_OK, { s0 with coil1 := CoilState.COIL_ON, coil2 := CoilState.COIL_ON, coil3 := CoilState.COIL_PWM })
  | 6 => (HALStatus.HAL_OK, { s0 with coil1 := CoilState.COIL_ON, coil2 := CoilState.COIL_ON, coil3 := CoilState.COIL_ON })
  | _ => (HALStatus.HAL_ERROR, s0)

/-- heater_check_door_state from heater.c: with the door open, saves the
current level (if none saved) and forces level 0; with the door closed,
restores a saved level.  The sentinel 0xff marks no saved level. -/
def heater_check_door_state (s : HeaterState) : HALStatus × HeaterState :=
  if s.flag_door_open then
    let s1 := if s.heater_level_prev = 0xff
      then { s with heater_level_prev := s.heater_level } else s
    if s1.heater_level ≠ 0 then
      let r := heater_set_level s1 0
      if r.1 ≠ HALStatus.HAL_OK then (HALStatus.HAL_ERROR, r.2)
      else (HALStatus.HAL_OK, r.2)
    else (HALStatus.HAL_OK, s1)
  else
    if s.heater_level_prev ≠ 0xff then
      let r := heater_set_level s s.heater_level_prev
      if r.1 ≠ HALStatus.HAL_OK then (HALStatus.HAL_ERROR, r.2)
      else (HALStatus.HAL_OK, { r.2 with heater_level_prev := 0xff })
    else (HALStatus.HAL_OK, s)

/-- heater_set_state from heater.c: runs the door check, then applies the
commanded coil states to the GPIO outputs (a peripheral effect that does
not change the commanded states themselves). -/
def heater_set_state (s : HeaterState) : HALStatus × HeaterState :=
  let r := heater_check_door_state s
  if r.1 ≠ HALStatus.HAL_OK then (HALStatus.HAL_ERROR, r.2)
  else (HALStatus.HAL_OK, r.2)

/-- heater_gradient_to_q16 from heater.c: converts a gradient magnitude in
degrees C per hour to a q16 rate in degrees C per second,
(gradient << 16) / 3600 computed in int32, negated for a cooling step. -/
def heater_gradient_to_q16 (gradient_per_hour : Nat) (is_negative : Bool) : Int :=
  let result := (toI32 ((gradient_per_hour : Int) * 65536)).tdiv 3600
  if is_negative then -result else result

/-- heater_stop_program from heater.c: disables gradient control, detaches
the program, clears step and target, then forces level 0 and applies the
coil states. -/
def heater_stop_program (s : HeaterState) : HALStatus × HeaterState :=
  let s1 := { s with gradient_control_enabled := false, active_program := none, current_step := 0, target_temperature := 0 }
  let r := heater_set_level s1 0
  let r2 := heater_set_state r.2
  (HALStatus.HAL_OK, r2.2)

/-- heater_advance_program_step from heater.c: bumps the step index; when
it reaches the program length the program is stopped, otherwise the next
target temperature and gradient setpoint are loaded. -/
def heater_advance_program_step (s : HeaterState) : HeaterState :=
  match s.active_program with
  | none => s
  | some program =>
      let s1 := { s with current_step := s.current_step + 1 }
      if program.length ≤ s1.current_step then
        (heater_stop_program s1).2
      else
        let step := s1.current_step
        let gradient_q16 := heater_gradient_to_q16
          (program.gradient.getD step 0) (program.gradient_negative.getD step false)
        { s1 with target_temperature := program.temperature.getD step 0, hgc := GradientController_SetSetpoint s1.hgc gradient_q16 }

/-- Step-advance check inlined in heater_on_interupt (heater.c): with an
active program, the truncated integer-degree temperature is compared
against the int16 cast of the step target; a heating step advances when
current_temp >= target, a cooling step when current_temp <= target.
The argument current_temp_deg is the value (int16_t)temp_float of the
source, the sensor temperature truncated to whole degrees. -/
def heater_interupt_target_check (s : HeaterState) (current_temp_deg : Int) :
    HeaterState :=
  match s.active_program with
  | none => s
  | some program =>
      let target := toI16 (s.target_temperature : Int)
      let is_heating := ¬ (program.gradient_negative.getD s.current_step false)
      if (is_heating ∧ current_temp_deg ≥ target) ∨
         (¬ is_heating ∧ current_temp_deg ≤ target) then
        heater_advance_program_step s
      else s

/-- heater_start_program from heater.c: rejects a missing handle, program
or gradient controller and a zero-length program; otherwise attaches the
program, loads target and gradient setpoint of step 0, then resets the
gradient controller state and enables gradient control. -/
def heater_start_program (s : HeaterState) (program : Option UiProgram) :
    HALStatus × HeaterState :=
  match program with
  | none => (HALStatus.HAL_ERROR, s)
  | some prog =>
      if s.hgc_null then (HALStatus.HAL_ERROR, s)
      else if prog.length = 0 then (HALStatus.HAL_ERROR, s)
      else
        let s1 := { s with active_program := some prog, current_step := 0, target_temperature := prog.temperature.getD 0 0 }
        let gradient_q16 := heater_gradient_to_q16
          (prog.gradient.getD 0 0) (prog.gradient_negative.getD 0 false)
        let s2 := { s1 with hgc := GradientController_SetSetpoint s1.hgc gradient_q16 }
        let s3 := { s2 with hgc := GradientController_Reset s2.hgc, gradient_control_enabled := true }
        (HALStatus.HAL_OK, s3)

/-- Int16 casts fix values already in signed 16-bit range. -/
theorem toI16_eq_self {x : Int} (h1 : -(2 ^ 15) ≤ x) (h2 : x < 2 ^ 15) :
    toI16 x = x := by
  unfold toI16
  have hlt : x + 2 ^ 15 < 2 ^ 16 := by omega
  have hge : (0 : Int) ≤ x + 2 ^ 15 := by omega
  rw [Int.emod_eq_of_lt hge hlt]
  omega

/-- Level to coil-state mapping documented on heater_set_level in
heater.c (levels 0..6). -/
def heater_level_coil_table (level : Nat) : CoilState × CoilState × CoilState :=
  match level with
  | 0 => (CoilState.COIL_OFF, CoilState.COIL_OFF, CoilState.COIL_OFF)
  | 1 => (CoilState.COIL_PWM, CoilState.COIL_OFF, CoilState.COIL_OFF)
  | 2 => (CoilState.COIL_ON, CoilState.COIL_OFF, CoilState.COIL_OFF)
  | 3 => (CoilState.COIL_ON, CoilState.COIL_PWM, CoilState.COIL_OFF)
  | 4 => (CoilState.COIL_ON, CoilState.COIL_ON, CoilState.COIL_OFF)
  | 5 => (CoilState.COIL_ON, CoilState.COIL_ON, CoilState.COIL_PWM)
  | _ => (CoilState.COIL_ON, CoilState.COIL_ON, CoilState.COIL_ON)

/-- Heater handle right after initHeater in heater.c: level 0, no saved
level, door closed, all coils off, gradient control disabled, no program,
default-initialized gradient controller attached. -/
def heater_test_state : HeaterState :=
  { heater_level := 0
    heater_level_prev := 0xff
    flag_door_open := false
    coil1 := CoilState.COIL_OFF
    coil2 := CoilState.COIL_OFF
    coil3 := CoilState.COIL_OFF
    gradient_control_enabled := false
    active_program := none
    current_step := 0
    target_temperature := 0
    hgc_null := false
    hgc := GradientController_Init }

/-- C10: heater_set_level with a level in 0..6 returns HAL_OK and commands
the three coils per the documented level table; with a level of 7 or more
it returns HAL_ERROR and leaves the coil states unchanged, but the
heater_level field of the handle has already been overwritten with the
invalid level. -/
theorem heater_set_level_level_table_and_error (s : HeaterState) (level : Nat) :
    (level ≤ 6 →
      (heater_set_level s level).1 = HALStatus.HAL_OK ∧
      ((heater_set_level s level).2.coil1, (heater_set_level s level).2.coil2,
        (heater_set_level s level).2.coil3) = heater_level_coil_table level) ∧
    (7 ≤ level →
      (heater_set_level s level).1 = HALStatus.HAL_ERROR ∧
      (heater_set_level s level).2.coil1 = s.coil1 ∧
      (heater_set_level s level).2.coil2 = s.coil2 ∧
      (heater_set_level s level).2.coil3 = s.coil3 ∧
      (heater_set_level s level).2.heater_level = level) := by
  match level with
  | 0 => exact ⟨fun _ => ⟨rfl, rfl⟩, fun h => absurd h (by omega)⟩
  | 1 => exact ⟨fun _ => ⟨rfl, rfl⟩, fun h => absurd h (by omega)⟩
  | 2 => exact ⟨fun _ => ⟨rfl, rfl⟩, fun h => absurd h (by omega)⟩
  | 3 => exact ⟨fun _ => ⟨rfl, rfl⟩, fun h => absurd h (by omega)⟩
  | 4 => exact ⟨fun _ => ⟨rfl, rfl⟩, fun h => absurd h (by omega)⟩
  | 5 => exact ⟨fun _ => ⟨rfl, rfl⟩, fun h => absurd h (by omega)⟩
  | 6 => exact ⟨fun _ => ⟨rfl, rfl⟩, fun h => absurd h (by omega)⟩
  | (n + 7) =>
      exact ⟨fun h => absurd h (by omega),
        fun _ => ⟨rfl, rfl, rfl, rfl, rfl⟩⟩

/-- C10 witness: the level theorem at the initial handle with the valid
level 3 and the invalid level 9. -/
theorem heater_set_level_level_table_and_error_witness :
    ((heater_set_level heater_test_state 3).1 = HALStatus.HAL_OK ∧
      ((heater_set_level heater_test_state 3).2.coil1,
        (heater_set_level heater_test_state 3).2.coil2,
        (heater_set_level heater_test_state 3).2.coil3) =
        heater_level_coil_table 3) ∧
    ((heater_set_level heater_test_state 9).1 = HALStatus.HAL_ERROR ∧
      (heater_set_level heater_test_state 9).2.coil1 = heater_test_state.coil1 ∧
      (heater_set_level heater_test_state 9).2.coil2 = heater_test_state.coil2 ∧
      (heater_set_level heater_test_state 9).2.coil3 = heater_test_state.coil3 ∧
      (heater_set_level heater_test_state 9).2.heater_level = 9) :=
  ⟨(heater_set_level_level_table_and_error heater_test_state 3).1 (by omega),
    (heater_set_level_level_table_and_error heater_test_state 9).2 (by omega)⟩

/-- C3 counterexample: the power command u = 32768 (duty one half) maps to
heater level 3, and applying level 3 commands a mix of coil states
(coil1 ON, coil2 PWM, coil3 OFF), so the three coil outputs are not driven
identically. -/
theorem heater_coils_mixed_counterexample :
    GradientController_GetHeaterLevel 32768 = 3 ∧
    ¬ ((heater_set_level heater_test_state 3).2.coil1 =
         (heater_set_level heater_test_state 3).2.coil2 ∧
       (heater_set_level heater_test_state 3).2.coil2 =
         (heater_set_level heater_test_state 3).2.coil3) := by
  constructor
  · decide
  · decide

/-- C3 amended: heater_set_level commands the coils per the level table,
and the three commanded coil states are all equal exactly for the levels 0
and 6; the intermediate levels 1..5 command a mix of ON, OFF and PWM. -/
theorem heater_coils_equal_iff_extreme_level (s : HeaterState) (level : Nat)
    (h : level ≤ 6) :
    (((heater_set_level s level).2.coil1 = (heater_set_level s level).2.coil2 ∧
      (heater_set_level s level).2.coil2 = (heater_set_level s level).2.coil3) ↔
      (level = 0 ∨ level = 6)) := by
  match level with
  | 0 => simp [heater_set_level]
  | 1 => simp [heater_set_level]
  | 2 => simp [heater_set_level]
  | 3 => simp [heater_set_level]
  | 4 => simp [heater_set_level]
  | 5 => simp [heater_set_level]
  | 6 => simp [heater_set_level]
  | (n + 7) => omega

/-- C3 amended witness: at level 6 the three commanded coils agree. -/
theorem heater_coils_equal_iff_extreme_level_witness :
    ((heater_set_level heater_test_state 6).2.coil1 =
        (heater_set_level heater_test_state 6).2.coil2 ∧
      (heater_set_level heater_test_state 6).2.coil2 =
        (heater_set_level heater_test_state 6).2.coil3) ↔
      ((6 : Nat) = 0 ∨ (6 : Nat) = 6) :=
  heater_coils_equal_iff_extreme_level heater_test_state 6 (by omega)

/-- Single-step heating program used as concrete input: ramp at 150
degrees C per hour to 100 degrees C. -/
def prog150 : UiProgram :=
  { length := 1, gradient := [150], gradient_negative := [false], temperature := [100] }

/-- C1: heater_start_program calls GradientController_SetSetpoint with the
step-0 gradient and only then GradientController_Reset, which zeroes the
setpoint again; so after a successful start on a program with nonzero
gradient the controller setpoint is 0 instead of the converted step-0
gradient (150 degrees C per hour converts to 2730 in q16), even though
gradient control is enabled and the controller state is reset. -/
theorem heater_start_program_drops_setpoint :
    (heater_start_program heater_test_state (some prog150)).1 = HALStatus.HAL_OK ∧
    (heater_start_program heater_test_state (some prog150)).2.hgc.g_sp = 0 ∧
    (heater_start_program heater_test_state (some prog150)).2.gradient_control_enabled = true ∧
    (heater_start_program heater_test_state (some prog150)).2.hgc.initialized = false ∧
    heater_gradient_to_q16 150 false = 2730 ∧ (2730 : Int) ≠ 0 := by
  refine ⟨rfl, rfl, rfl, rfl, by decide, by decide⟩

/-- Two-step heating program used as concrete input for the sequencer
claims: 150 degrees C per hour to 100 degrees C, then to 200 degrees C. -/
def prog2step : UiProgram :=
  { length := 2
    gradient := [150, 150]
    gradient_negative := [false, false]
    temperature := [100, 200] }

/-- Heater state during the first (heating) step of prog2step. -/
def heater_step_state : HeaterState :=
  { heater_test_state with
    active_program := some prog2step
    gradient_control_enabled := true
    target_temperature := 100 }

/-- C5 counterexample: at 96 whole degrees the measured temperature is
inside the default deadband below the 100 degree target
(100000 - 96000 < 5000 millidegrees, TC_DEFAULT_T_BAND_MDEG), so the claim
says the step advances on this tick; the interrupt check in heater.c
compares whole degrees against the target and leaves the state unchanged. -/
theorem heater_advance_deadband_counterexample :
    heater_interupt_target_check heater_step_state 96 = heater_step_state ∧
    ((100000 : Int) - 96000 < 5000) := by
  constructor
  · decide
  · decide

/-- C5 amended: during a heating step of an active program, the interrupt
check advances the sequencer exactly when the truncated whole-degree
temperature has reached the step target: current_temp >= target; a
temperature strictly below the target, even inside the deadband, does not
advance the step (the deadband T_band plays no role in step advance). -/
theorem heater_advance_iff_target_reached (s : HeaterState) (program : UiProgram)
    (temp : Int) (hprog : s.active_program = some program)
    (hheat : program.gradient_negative.getD s.current_step false = false)
    (htgt : s.target_temperature < 32768) :
    heater_interupt_target_check s temp =
      if (s.target_temperature : Int) ≤ temp then heater_advance_program_step s
      else s := by
  unfold heater_interupt_target_check
  rw [hprog]
  have h16 : toI16 (s.target_temperature : Int) = (s.target_temperature : Int) := by
    refine toI16_eq_self (by omega) (by omega)
  simp only [hheat, h16, Bool.false_eq_true, not_false_eq_true, true_and,
    not_true, false_and, or_false, ge_iff_le]

/-- C5 amended witness: at exactly 100 degrees the heating step of
prog2step advances. -/
theorem heater_advance_iff_target_reached_witness :
    heater_interupt_target_check heater_step_state 100 =
      if ((heater_step_state.target_temperature : Int) ≤ 100)
      then heater_advance_program_step heater_step_state
      else heater_step_state :=
  heater_advance_iff_target_reached heater_step_state prog2step 100 rfl rfl
    (by decide)

/-
Thermocouple frame decoding (MAX31855.c).  The 32-bit frame is parsed with
explicit shifts in max31855_update_payload; the accessor
max31855_get_temp_val applies a two-complement negation of the 11-bit value
field truncated to uint16_t, and max31855_get_temp_f32 combines sign,
value and quarter-degree fraction.  The float32 arithmetic of the source
is exact on this range (all intermediate values are integers and quarters
below 2 to the 24), so the decoded temperature is represented exactly in
quarter degrees as an Int.
-/

/-- Parsed thermocouple fields of the 32-bit frame, from
max31855_update_payload in MAX31855.c. -/
structure Max31855Payload where
  therm_temp_sign : Nat
  therm_temp_value : Nat
  therm_temp_fractual_value : Nat
  fault : Nat
  scv_fault : Nat
  scg_fault : Nat
  oc_fault : Nat
  deriving Repr, DecidableEq

/-- max31855_update_payload from MAX31855.c restricted to the thermocouple
and fault fields: extracts sign (bit 31), value (bits 30..20), fraction
(bits 19..18) and the fault bits from the raw 32-bit word. -/
def max31855_update_payload (raw_data : Nat) : Max31855Payload :=
  { therm_temp_sign := (raw_data >>> 31) &&& 0x01
    therm_temp_value := (raw_data >>> 20) &&& 0x7FF
    therm_temp_fractual_value := (raw_data >>> 18) &&& 0x03
    fault := (raw_data >>> 16) &&& 0x01
    scv_fault := (raw_data >>> 2) &&& 0x01
    scg_fault := (raw_data >>> 1) &&& 0x01
    oc_fault := raw_data &&& 0x01 }

/-- max31855_get_temp_val from MAX31855.c: for a nonnegative reading the
raw 11-bit value; for a negative reading the int expression ~value + 1
truncated to uint16_t. -/
def max31855_get_temp_val (p : Max31855Payload) : Nat :=
  if p.therm_temp_sign = 0 then p.therm_temp_value
  else (toU16 (-(p.therm_temp_value : Int))).toNat

/-- max31855_get_temp_f32 from MAX31855.c, expressed exactly in quarter
degrees: value plus quarter fraction, negated when the sign bit is set. -/
def max31855_get_temp_quarters (p : Max31855Payload) : Int :=
  let temp_val := max31855_get_temp_val p
  let q := 4 * (temp_val : Int) + (p.therm_temp_fractual_value : Int)
  if p.therm_temp_sign = 1 then -q else q

/-- Decoding required by the claim, modeled from the spec: the 14-bit
combined field (bits 31..18) read as a two-complement number of quarter
degrees. -/
def max31855_spec_temp_quarters (raw_data : Nat) : Int :=
  let field : Nat := (raw_data >>> 18) % 2 ^ 14
  if field < 2 ^ 13 then (field : Int) else (field : Int) - 2 ^ 14

/-- C4: on the frame 0xFFF00000, whose 14-bit combined field encodes -4
quarter degrees (-1 degree C per the claim and the spec decoding), the
source decodes -253956 quarter degrees (-63489 degrees C): the negation
~value + 1 is truncated to uint16_t instead of the 11-bit field width, so
the decoded value disagrees with the two-complement interpretation of the
combined field. -/
theorem max31855_negative_frame_decodes_wrong :
    max31855_spec_temp_quarters 0xFFF00000 = -4 ∧
    max31855_get_temp_quarters (max31855_update_payload 0xFFF00000) = -253956 ∧
    max31855_get_temp_val (max31855_update_payload 0xFFF00000) = 63489 := by
  refine ⟨by decide, by decide, by decide⟩

/-
Persistence (settings.c, programs.c).  The flash primitives
flash_read_data, flash_write_data, flash_erase_page and
flash_compute_crc32 are declared in flash_storage.h but their
implementation is not part of the sources; loads are therefore
parametrized by the record read from the flash page (none for a failed
read) and by the CRC function.  A load performs no flash write; init
returns the flash page content unchanged, which makes the absence of a
write-back explicit.
-/

/-- Settings magic number SET1 (settings.h). -/
def SETTINGS_MAGIC : Nat := 0x53455431

/-- Programs magic number PRG1 (programs.h). -/
def PROGRAMS_MAGIC : Nat := 0x50524731

/-- Maximum number of stored programs (programs.h). -/
def MAX_PROGRAMS : Nat := 10

/-- Settings record, from settings_data_t in settings.h. -/
structure SettingsData where
  magic : Nat
  gc_Kc : Nat
  gc_Ti_s : Nat
  gc_Taw_s : Nat
  gc_alpha_x100 : Nat
  tc_Kp : Nat
  tc_T_band_deg : Nat
  reserved1 : Nat
  cb_g_min_degph : Nat
  cb_hysteresis_degph : Nat
  cb_u_brake_max_pct : Nat
  cb_Kb : Nat
  ssr_window_seconds : Nat
  ssr_min_switch : Nat
  reserved2 : Nat
  crc32 : Nat
  deriving Repr, DecidableEq

/-- settings_validate from settings.c: every tunable is checked against
its documented closed range; any violation invalidates the record. -/
def settings_validate (s : SettingsData) : Bool :=
  if s.gc_Kc < 1 ∨ s.gc_Kc > 500 then false
  else if s.gc_Ti_s < 10 ∨ s.gc_Ti_s > 300 then false
  else if s.gc_Taw_s < 10 ∨ s.gc_Taw_s > 300 then false
  else if s.gc_alpha_x100 < 50 ∨ s.gc_alpha_x100 > 99 then false
  else if s.tc_Kp < 10 ∨ s.tc_Kp > 500 then false
  else if s.tc_T_band_deg < 1 ∨ s.tc_T_band_deg > 20 then false
  else if s.cb_g_min_degph < 50 ∨ s.cb_g_min_degph > 300 then false
  else if s.cb_hysteresis_degph < 1 ∨ s.cb_hysteresis_degph > 30 then false
  else if s.cb_Kb < 100 ∨ s.cb_Kb > 10000 then false
  else if s.cb_u_brake_max_pct < 1 ∨ s.cb_u_brake_max_pct > 50 then false
  else if s.ssr_window_seconds < 10 ∨ s.ssr_window_seconds > 60 then false
  else if s.ssr_min_switch < 1 ∨ s.ssr_min_switch > 15 then false
  else true

/-- settings_reset_defaults from settings.c: zeroes the record, then fills
the DEFAULT_* constants of settings.h; the CRC stays zero until a save. -/
def settings_reset_defaults : SettingsData :=
  { magic := SETTINGS_MAGIC
    gc_Kc := 100
    gc_Ti_s := 60
    gc_Taw_s := 60
    gc_alpha_x100 := 85
    tc_Kp := 61
    tc_T_band_deg := 5
    reserved1 := 0
    cb_g_min_degph := 100
    cb_hysteresis_degph := 6
    cb_u_brake_max_pct := 10
    cb_Kb := 3000
    ssr_window_seconds := 20
    ssr_min_switch := 5
    reserved2 := 0
    crc32 := 0 }

/-- settings_load from settings.c: checks the read, the magic, the CRC of
the record with the CRC field zeroed, copies the record into the global
settings, and finally range-checks every field.  Any failure returns
HAL_ERROR.  The argument g is the global settings before the call; the
returned record is the global settings after the call. -/
def settings_load (g : SettingsData) (flash : Option SettingsData)
    (crc : SettingsData → Nat) : HALStatus × SettingsData :=
  match flash with
  | none => (HALStatus.HAL_ERROR, g)
  | some temp =>
      if temp.magic ≠ SETTINGS_MAGIC then (HALStatus.HAL_ERROR, g)
      else
        let stored_crc := temp.crc32
        let temp0 := { temp with crc32 := 0 }
        if stored_crc ≠ crc temp0 then (HALStatus.HAL_ERROR, g)
        else
          let g1 := { temp0 with crc32 := stored_crc }
          if settings_validate g1 = false then (HALStatus.HAL_ERROR, g1)
          else (HALStatus.HAL_OK, g1)

/-- settings_init from settings.c: attempts a load; on any failure the
global settings fall back to the compiled defaults.  Always returns
HAL_OK.  The third component is the flash page after the call, returned
unchanged because the boot path never writes flash. -/
def settings_init (g : SettingsData) (flash : Option SettingsData)
    (crc : SettingsData → Nat) : HALStatus × SettingsData × Option SettingsData :=
  let r := settings_load g flash crc
  if r.1 = HALStatus.HAL_OK then (HALStatus.HAL_OK, r.2, flash)
  else (HALStatus.HAL_OK, settings_reset_defaults, flash)

/-- C7: settings_load fails on a magic mismatch, on a CRC that differs
from the CRC recomputed over the record with the CRC field zeroed, and on
any out-of-range field; and whenever the load fails, settings_init falls
back to the compiled defaults and leaves the flash page unchanged. -/
theorem settings_load_rejects_and_init_defaults
    (g : SettingsData) (flash : Option SettingsData)
    (crc : SettingsData → Nat) (temp : SettingsData)
    (hread : flash = some temp) :
    ((temp.magic ≠ SETTINGS_MAGIC → (settings_load g flash crc).1 = HALStatus.HAL_ERROR) ∧
     (temp.crc32 ≠ crc { temp with crc32 := 0 } → (settings_load g flash crc).1 = HALStatus.HAL_ERROR) ∧
     (settings_validate temp = false → (settings_load g flash crc).1 = HALStatus.HAL_ERROR)) ∧
    ((settings_load g flash crc).1 = HALStatus.HAL_ERROR →
      settings_init g flash crc = (HALStatus.HAL_OK, settings_reset_defaults, flash)) := by
  subst hread
  refine ⟨⟨?_, ?_, ?_⟩, ?_⟩
  · intro hmagic
    simp [settings_load, hmagic]
  · intro hcrc
    unfold settings_load
    by_cases hmagic : temp.magic ≠ SETTINGS_MAGIC
    · simp [hmagic]
    · simp only [hmagic, if_false, ite_not]
      simp [hcrc]
  · intro hval
    unfold settings_load
    by_cases hmagic : temp.magic ≠ SETTINGS_MAGIC
    · simp [hmagic]
    · by_cases hcrc : temp.crc32 ≠ crc { temp with crc32 := 0 }
      · simp [hmagic, hcrc]
      · simp [hmagic, hcrc, hval]
  · intro herr
    simp only [settings_init, herr]
    simp

/-- C7 witness: a flash record with a corrupted magic number is rejected
by the load and the boot path installs the defaults, flash untouched. -/
theorem settings_load_rejects_and_init_defaults_witness :
    ({ settings_reset_defaults with magic := 0 }.magic ≠ SETTINGS_MAGIC →
      (settings_load settings_reset_defaults
        (some { settings_reset_defaults with magic := 0 }) (fun _ => 0)).1 =
        HALStatus.HAL_ERROR) ∧
    ((settings_load settings_reset_defaults
        (some { settings_reset_defaults with magic := 0 }) (fun _ => 0)).1 =
        HALStatus.HAL_ERROR →
      settings_init settings_reset_defaults
        (some { settings_reset_defaults with magic := 0 }) (fun _ => 0) =
        (HALStatus.HAL_OK, settings_reset_defaults,
          some { settings_reset_defaults with magic := 0 })) := by
  have h := settings_load_rejects_and_init_defaults settings_reset_defaults
    (some { settings_reset_defaults with magic := 0 }) (fun _ => 0)
    { settings_reset_defaults with magic := 0 } rfl
  exact ⟨h.1.1, h.2⟩

/-- Firing program record, from program_t in programs.h: step count plus
per-step gradient magnitude, sign flag and target temperature. -/
structure ProgramRec where
  length : Nat
  gradient : List Nat
  gradient_negative : List Nat
  temperature : List Nat
  deriving Repr, DecidableEq

/-- Persisted program set, from programs_data_t in programs.h.  The
ten-slot array is modeled as a function from slot index to record. -/
structure ProgramsData where
  magic : Nat
  count : Nat
  programs : Nat → ProgramRec
  crc32 : Nat

/-- programs_load from programs.c: checks the read, the magic, the CRC of
the record with the CRC field zeroed, and that count does not exceed
MAX_PROGRAMS; nothing else is validated.  The argument g is the global
program set before the call; the returned record is the global set after
the call. -/
def programs_load (g : ProgramsData) (flash : Option ProgramsData)
    (crc : ProgramsData → Nat) : HALStatus × ProgramsData :=
  match flash with
  | none => (HALStatus.HAL_ERROR, g)
  | some temp =>
      if temp.magic ≠ PROGRAMS_MAGIC then (HALStatus.HAL_ERROR, g)
      else
        let stored_crc := temp.crc32
        let temp0 := { temp with crc32 := 0 }
        if stored_crc ≠ crc temp0 then (HALStatus.HAL_ERROR, g)
        else if temp.count > MAX_PROGRAMS then (HALStatus.HAL_ERROR, g)
        else (HALStatus.HAL_OK, { temp0 with crc32 := stored_crc })

/-- programs_add from programs.c: rejects a null pointer and a full list,
otherwise copies the program into the next slot and returns its index;
the program content, including a zero length, is not inspected. -/
def programs_add (g : ProgramsData) (program : Option ProgramRec) :
    Int × ProgramsData :=
  match program with
  | none => (-1, g)
  | some p =>
      if g.count ≥ MAX_PROGRAMS then (-1, g)
      else ((g.count : Int),
        { g with
          programs := fun i => if i = g.count then p else g.programs i
          count := g.count + 1 })

/-- Program record whose length is zero, used as concrete input. -/
def zero_length_program : ProgramRec :=
  { length := 0, gradient := [], gradient_negative := [], temperature := [] }

/-- Program set with no programs stored. -/
def empty_programs : ProgramsData :=
  { magic := PROGRAMS_MAGIC, count := 0, programs := fun _ => zero_length_program,
    crc32 := 0 }

/-- Well-formed flash record that persists one zero-length program. -/
def zero_length_record : ProgramsData :=
  { magic := PROGRAMS_MAGIC, count := 1, programs := fun _ => zero_length_program,
    crc32 := 0 }

/-- C6 counterexample: with a CRC function that maps every record to 0,
the record zero_length_record has a valid magic and a matching CRC and
persists one program of length 0, yet programs_load accepts it; and
programs_add accepts a zero-length program into an empty set, returning
slot 0 rather than a rejection. -/
theorem programs_accept_zero_length_counterexample :
    (programs_load empty_programs (some zero_length_record) (fun _ => 0)).1 =
      HALStatus.HAL_OK ∧
    ((programs_load empty_programs (some zero_length_record) (fun _ => 0)).2.programs 0).length = 0 ∧
    (programs_add empty_programs (some zero_length_program)).1 = 0 ∧
    ((0 : Int) ≠ -1) := by
  refine ⟨rfl, rfl, rfl, by decide⟩

/-- C6 amended: programs_load succeeds exactly when the magic matches, the
stored CRC equals the CRC of the record with the CRC field zeroed, and
count is at most MAX_PROGRAMS; per-program lengths are not validated.
programs_add fails exactly when the pointer is null or the set is full;
a zero-length program is accepted.  The length >= 1 check exists only in
heater_start_program, which rejects running a zero-length program. -/
theorem programs_validation_scope (g : ProgramsData) (crc : ProgramsData → Nat)
    (temp : ProgramsData) (p : ProgramRec) (s : HeaterState)
    (prog : UiProgram) (hlen : prog.length = 0) (hgc : s.hgc_null = false) :
    ((programs_load g (some temp) crc).1 = HALStatus.HAL_OK ↔
      (temp.magic = PROGRAMS_MAGIC ∧ temp.crc32 = crc { temp with crc32 := 0 } ∧
        temp.count ≤ MAX_PROGRAMS)) ∧
    ((programs_add g (some p)).1 = -1 ↔ MAX_PROGRAMS ≤ g.count) ∧
    (heater_start_program s (some prog)).1 = HALStatus.HAL_ERROR := by
  refine ⟨?_, ?_, ?_⟩
  · unfold programs_load
    by_cases hmagic : temp.magic ≠ PROGRAMS_MAGIC
    · simp [hmagic]
    · by_cases hcrc : temp.crc32 ≠ crc { temp with crc32 := 0 }
      · simp [hmagic, hcrc]
      · by_cases hcount : temp.count > MAX_PROGRAMS
        · simp [hmagic, hcrc, hcount]
        · simp only [hmagic, hcrc, hcount]
          simp only [not_not] at hmagic hcrc
          refine iff_of_true rfl ⟨hmagic, hcrc, by omega⟩
  · unfold programs_add
    by_cases hfull : g.count ≥ MAX_PROGRAMS
    · simp [hfull]
    · simp only [if_neg hfull]
      have := Int.natCast_nonneg g.count
      constructor
      · intro h
        omega
      · intro h
        exact absurd h hfull
  · unfold heater_start_program
    simp [hgc, hlen]

/-- C6 amended witness: the scope theorem instantiated at the concrete
zero-CRC record and the zero-length program. -/
theorem programs_validation_scope_witness :
    ((programs_load empty_programs (some zero_length_record) (fun _ => 0)).1 =
        HALStatus.HAL_OK ↔
      (zero_length_record.magic = PROGRAMS_MAGIC ∧
        zero_length_record.crc32 = 0 ∧
        zero_length_record.count ≤ MAX_PROGRAMS)) ∧
    ((programs_add empty_programs (some zero_length_program)).1 = -1 ↔
      MAX_PROGRAMS ≤ empty_programs.count) ∧
    (heater_start_program heater_test_state
      (some { length := 0, gradient := [], gradient_negative := [], temperature := [] })).1 = HALStatus.HAL_ERROR :=
  programs_validation_scope empty_programs (fun _ => 0) zero_length_record
    zero_length_program heater_test_state
    { length := 0, gradient := [], gradient_negative := [], temperature := [] }
    rfl rfl
